import Mathlib

/-!
Verification of the registration and dispatch logic of `pysellus/registrar.py`.

The embedding models:
* Python values (as far as truthiness matters) and testers, which either
  return a value or raise an exception;
* the integrations collaborator: a registry (an ordered association list
  standing for the Python dict `registered_integrations`) and the two
  notification entry points, each of which may itself raise;
* `_on_failure_wrapper`, instrumented with an event trace recording the
  registry lookup, the payload construction and every notification call,
  together with an outcome (`ok` or `raised`) saying whether an exception
  propagates out of the wrapper;
* the module-global `stream_to_testers` table (an insertion-ordered
  association list, as a Python dict is), `_register_tester_for_stream`,
  `tests_registrar`, `register`, and the call-stack inspection of
  `_get_name_of_expect_caller`.
-/

/-- Python values, as far as the registrar observes them (only truthiness
and identity matter). -/
inductive PyVal : Type where
  | none : PyVal
  | bool : Bool → PyVal
  | int : Int → PyVal
  | str : String → PyVal
  | list : List PyVal → PyVal

/-- Python truthiness, used by `if not tester(element)`. -/
def PyVal.truthy : PyVal → Bool
  | .none => false
  | .bool b => b
  | .int n => n != 0
  | .str s => s != ""
  | .list xs => !xs.isEmpty

/-- Exceptions. `keyError k` models the `KeyError` a failed dict subscript
raises; `err tag` models any other exception object, identified by a tag. -/
inductive Exc : Type where
  | keyError : String → Exc
  | err : String → Exc
deriving DecidableEq, Repr

/-- Outcome of calling a Python function on one argument: either it returns
a value or it raises. -/
inductive CallResult : Type where
  | ret : PyVal → CallResult
  | exc : Exc → CallResult

/-- A tester: a unary predicate with a retrievable `__name__`; may raise. -/
structure Tester : Type where
  name : String
  run : PyVal → CallResult

/-- One entry of `integrations.registered_integrations`. -/
structure Integration : Type where
  test_description : String
deriving DecidableEq, Repr

/-- Dict subscript on the integration registry (an insertion-ordered
association list): `registered_integrations[test_name]`. -/
def lookupIntegration : List (String × Integration) → String → Option Integration
  | [], _ => Option.none
  | (k, v) :: rest, name => if k = name then some v else lookupIntegration rest name

/-- The notification payload dict built by `_make_message_payload`, with the
`error` key that `_on_failure_wrapper` may add afterwards. -/
structure Payload : Type where
  test_name : String
  expect_function : String
  element : PyVal
  error : Option Exc

/-- `_make_message_payload`: builds the payload dict (no `error` key yet). -/
def make_message_payload (test_name tester_name : String) (element : PyVal) : Payload :=
  { test_name := test_name
    expect_function := tester_name
    element := element
    error := Option.none }

/-- The `integrations` collaborator module: the registry plus the behaviour
of the two notification entry points (`some e` means the call raises `e`,
`Option.none` means it returns normally). -/
structure Integrations : Type where
  registered_integrations : List (String × Integration)
  notify_element : String → Payload → Option Exc
  notify_error : String → Payload → Option Exc

/-- Observable events of one `_on_failure_wrapper` invocation, in order. -/
inductive Event : Type where
  | registryLookup : String → Event
  | payloadBuilt : Payload → Event
  | notifyElement : String → Payload → Event
  | notifyError : String → Payload → Event

/-- Result of one `_on_failure_wrapper` invocation: the events that
happened, and whether the call returned normally or let an exception
propagate out. -/
inductive WrapperResult : Type where
  | ok : List Event → WrapperResult
  | raised : Exc → List Event → WrapperResult

/-- The events of a wrapper result. -/
def WrapperResult.events : WrapperResult → List Event
  | .ok evs => evs
  | .raised _ evs => evs

/-- Whether the wrapper returned normally (no exception propagated). -/
def WrapperResult.returnedNormally : WrapperResult → Bool
  | .ok _ => true
  | .raised _ _ => false

/-- `_on_failure_wrapper(test_name, tester, element)`.

Faithful to the source order: the registry subscript and the payload
construction happen first, outside the `try` block (a failed lookup raises
`KeyError` uncaught); then `tester(element)` runs inside `try`; a falsy
result triggers `notify_element`; any exception raised inside the `try`
block (by the tester or by `notify_element`) is caught, stored under the
payload's `error` key, and forwarded to `notify_error`, which is outside
any handler, so its own exception would propagate. -/
def on_failure_wrapper (ints : Integrations) (test_name : String) (tester : Tester)
    (element : PyVal) : WrapperResult :=
  match lookupIntegration ints.registered_integrations test_name with
  | Option.none => .raised (.keyError test_name) [.registryLookup test_name]
  | some integ =>
    let payload := make_message_payload integ.test_description tester.name element
    let pre : List Event := [.registryLookup test_name, .payloadBuilt payload]
    match tester.run element with
    | .exc e =>
      let p2 := { payload with error := some e }
      match ints.notify_error test_name p2 with
      | Option.none => .ok (pre ++ [.notifyError test_name p2])
      | some e2 => .raised e2 (pre ++ [.notifyError test_name p2])
    | .ret v =>
      if v.truthy then .ok pre
      else
        match ints.notify_element test_name payload with
        | Option.none => .ok (pre ++ [.notifyElement test_name payload])
        | some e =>
          let p2 := { payload with error := some e }
          match ints.notify_error test_name p2 with
          | Option.none =>
            .ok (pre ++ [.notifyElement test_name payload, .notifyError test_name p2])
          | some e2 =>
            .raised e2 (pre ++ [.notifyElement test_name payload, .notifyError test_name p2])

/-- Is this event a call to `notify_error`? -/
def Event.isNotifyError : Event → Bool
  | .notifyError _ _ => true
  | _ => false

/-- Is this event a call to `notify_element`? -/
def Event.isNotifyElement : Event → Bool
  | .notifyElement _ _ => true
  | _ => false

/-- Is this event a payload construction? -/
def Event.isPayloadBuilt : Event → Bool
  | .payloadBuilt _ => true
  | _ => false

/-- Is this event an integration-registry access? -/
def Event.isRegistryLookup : Event → Bool
  | .registryLookup _ => true
  | _ => false

/-- A wrapped tester: `partial(_on_failure_wrapper, test_name, tester)`,
i.e. the wrapper with the correlation name and the tester already bound. -/
structure WTester : Type where
  test_name : String
  tester : Tester

/-- Invoking a wrapped tester on an element (the partial application
applied to the element). -/
def WTester.call (ints : Integrations) (wt : WTester) (element : PyVal) : WrapperResult :=
  on_failure_wrapper ints wt.test_name wt.tester element

/-- The module-global `stream_to_testers` dict: stream handles are opaque
identities (modelled as `Nat`); a Python dict is an insertion-ordered
association list, new keys appended at the end. -/
def Table : Type := List (Nat × List WTester)

/-- Dict membership test `stream in stream_to_testers` / subscript. -/
def lookupTable : Table → Nat → Option (List WTester)
  | [], _ => Option.none
  | (k, v) :: rest, s => if k = s then some v else lookupTable rest s

/-- `_register_tester_for_stream(stream, tester)`: append to the existing
list when the stream is already a key, else bind the stream to a fresh
one-element list (a new key goes to the end of the dict). -/
def register_tester_for_stream (t : Table) (stream : Nat) (wt : WTester) : Table :=
  match t with
  | [] => [(stream, [wt])]
  | (k, v) :: rest =>
    if k = stream then (k, v ++ [wt]) :: rest
    else (k, v) :: register_tester_for_stream rest stream wt

/-- The body of `tests_registrar(*testers)` returned by `expect(stream)`:
for each tester, in argument order, register
`partial(_on_failure_wrapper, test_name, tester)` against the stream. -/
def tests_registrar (test_name : String) (stream : Nat) (testers : List Tester)
    (t : Table) : Table :=
  testers.foldl (fun acc tester => register_tester_for_stream acc stream ⟨test_name, tester⟩) t

/-- `inspect.stack()` modelled as the list of function names on the call
stack, innermost frame first; `frame[3]` is the name. -/
def pyStack : Type := List String

/-- The `distance_to_setup_function` computation of
`_get_name_of_expect_caller`: `sum([1, 1, 1]) - 1`. -/
def distance_to_setup_function : Nat := [1, 1, 1].sum - 1

/-- `_get_name_of_expect_caller()`: `inspect.stack()[distance][3]`; `none`
models the `IndexError` of a too-short stack. -/
def get_name_of_expect_caller (stack : pyStack) : Option String :=
  stack.get? distance_to_setup_function

/-- The call stack as seen inside `_get_name_of_expect_caller` when a
function named `caller` (itself running on top of `rest`) calls `expect`:
frame 0 is `_get_name_of_expect_caller`, frame 1 is `expect`, frame 2 is
the caller. -/
def stackInsideExpect (caller : String) (rest : pyStack) : pyStack :=
  "_get_name_of_expect_caller" :: "expect" :: caller :: rest

/-- The `test_name` that `expect` captures when called directly from a
function named `caller`. -/
def expectTestName (caller : String) (rest : pyStack) : Option String :=
  get_name_of_expect_caller (stackInsideExpect caller rest)

/-- One call of the form `expect(stream)(*testers)` made by a declaration
function. -/
structure ExpectCall : Type where
  stream : Nat
  testers : List Tester

/-- A zero-argument declaration function: its `__name__` (which `expect`
captures as the correlation name) and the `expect` calls its body makes. -/
structure Declaration : Type where
  name : String
  calls : List ExpectCall

/-- Running a declaration function: each `expect(stream)(*testers)` call in
body order registers its testers under the declaration's name. -/
def runDeclaration (d : Declaration) (t : Table) : Table :=
  d.calls.foldl (fun acc c => tests_registrar d.name c.stream c.testers acc) t

/-- A zero-argument callable handed to `register`: an identity (so that the
invocation log can record it) and its effect on the global table. -/
structure Callable : Type where
  id : Nat
  body : Table → Table

/-- A declaration function viewed as a callable for `register`. -/
def Declaration.toCallable (d : Declaration) (i : Nat) : Callable :=
  ⟨i, runDeclaration d⟩

/-- The loop of `register`: call each function in list order, threading the
global table, and log each invocation. -/
def registerRun : List Callable → Table → List Nat × Table
  | [], t => ([], t)
  | fn :: rest, t =>
    let t1 := fn.body t
    let (log, t2) := registerRun rest t1
    (fn.id :: log, t2)

/-- `register(function_list)`: run the loop, then return
`stream_to_testers`.  The result is (invocation log, new global table,
returned value); the returned value is the global table itself, so the
last two components coincide by construction of the model, which is the
object-identity fact `return stream_to_testers` gives in Python. -/
def register (fns : List Callable) (t : Table) : List Nat × Table × Table :=
  let (log, t1) := registerRun fns t
  (log, t1, t1)

/-- Running the stored testers of a stream against one emitted element, in
stored order (what the external reactive runtime does per element). -/
def runTestersOnElement (ints : Integrations) (t : Table) (s : Nat) (element : PyVal) :
    List WrapperResult :=
  ((lookupTable t s).getD []).map fun wt => wt.call ints element

/-- `t'` extends `t`: no key and no stored tester is ever removed, and the
testers already stored keep their positions. -/
def TableExtends (t t' : Table) : Prop :=
  ∀ s l, lookupTable t s = some l → ∃ l2, lookupTable t' s = some (l ++ l2)

lemma tableExtends_refl (t : Table) : TableExtends t t :=
  fun s l h => ⟨[], by simpa using h⟩

lemma tableExtends_trans {t1 t2 t3 : Table} (h12 : TableExtends t1 t2)
    (h23 : TableExtends t2 t3) : TableExtends t1 t3 := by
  intro s l h
  obtain ⟨l2, hl2⟩ := h12 s l h
  obtain ⟨l3, hl3⟩ := h23 s _ hl2
  exact ⟨l2 ++ l3, by simpa [List.append_assoc] using hl3⟩

lemma lookup_register_same (t : Table) (s : Nat) (wt : WTester) :
    lookupTable (register_tester_for_stream t s wt) s
      = some ((lookupTable t s).getD [] ++ [wt]) := by
  induction t with
  | nil => simp [register_tester_for_stream, lookupTable]
  | cons hd tl ih =>
    obtain ⟨k, v⟩ := hd
    by_cases hk : k = s
    · subst hk
      simp [register_tester_for_stream, lookupTable]
    · simp [register_tester_for_stream, lookupTable, hk, ih]

lemma lookup_register_other (t : Table) (s s' : Nat) (wt : WTester) (h : s' ≠ s) :
    lookupTable (register_tester_for_stream t s wt) s' = lookupTable t s' := by
  induction t with
  | nil => simp [register_tester_for_stream, lookupTable, Ne.symm h]
  | cons hd tl ih =>
    obtain ⟨k, v⟩ := hd
    by_cases hk : k = s
    · subst hk
      simp [register_tester_for_stream, lookupTable, Ne.symm h]
    · simp [register_tester_for_stream, lookupTable, hk, ih]

lemma tableExtends_register (t : Table) (s : Nat) (wt : WTester) :
    TableExtends t (register_tester_for_stream t s wt) := by
  intro s' l h
  by_cases hs : s' = s
  · subst hs
    exact ⟨[wt], by simp [lookup_register_same, h]⟩
  · exact ⟨[], by simp [lookup_register_other t s s' wt hs, h]⟩

lemma tableExtends_foldl {α : Type} (step : Table → α → Table)
    (hstep : ∀ t x, TableExtends t (step t x)) :
    ∀ (xs : List α) (t : Table), TableExtends t (xs.foldl step t) := by
  intro xs
  induction xs with
  | nil => intro t; exact tableExtends_refl t
  | cons x xs ih =>
    intro t
    exact tableExtends_trans (hstep t x) (ih (step t x))

lemma tableExtends_tests_registrar (name : String) (s : Nat) (ts : List Tester)
    (t : Table) : TableExtends t (tests_registrar name s ts t) :=
  tableExtends_foldl _ (fun t tr => tableExtends_register t s ⟨name, tr⟩) ts t

lemma tableExtends_runDeclaration (d : Declaration) (t : Table) :
    TableExtends t (runDeclaration d t) := by
  have h := tableExtends_foldl
    (fun acc (c : ExpectCall) => tests_registrar d.name c.stream c.testers acc)
    (fun t c => tableExtends_tests_registrar d.name c.stream c.testers t) d.calls t
  simpa [runDeclaration] using h

lemma lookup_tests_registrar_getD (name : String) (s : Nat) (ts : List Tester)
    (t : Table) :
    (lookupTable (tests_registrar name s ts t) s).getD []
      = (lookupTable t s).getD [] ++ ts.map fun tr => (⟨name, tr⟩ : WTester) := by
  induction ts generalizing t with
  | nil => simp [tests_registrar]
  | cons tr ts ih =>
    have h1 := lookup_register_same t s ⟨name, tr⟩
    calc (lookupTable (tests_registrar name s (tr :: ts) t) s).getD []
        = (lookupTable
            (tests_registrar name s ts (register_tester_for_stream t s ⟨name, tr⟩)) s).getD [] := by
          simp [tests_registrar]
      _ = (lookupTable (register_tester_for_stream t s ⟨name, tr⟩) s).getD []
            ++ ts.map (fun tr => (⟨name, tr⟩ : WTester)) := ih _
      _ = (lookupTable t s).getD [] ++ (tr :: ts).map fun tr => (⟨name, tr⟩ : WTester) := by
          simp [h1]

lemma registerRun_log (fns : List Callable) (t : Table) :
    (registerRun fns t).1 = fns.map Callable.id := by
  induction fns generalizing t with
  | nil => simp [registerRun]
  | cons fn fns ih => simp [registerRun, ih]

lemma tableExtends_registerRun_decls (ds : List Declaration) (t : Table) :
    TableExtends t (registerRun (ds.map fun d => d.toCallable 0) t).2 := by
  induction ds generalizing t with
  | nil => simpa [registerRun] using tableExtends_refl t
  | cons d ds ih =>
    have h1 : TableExtends t (runDeclaration d t) := tableExtends_runDeclaration d t
    have h2 := ih (runDeclaration d t)
    refine tableExtends_trans h1 ?_
    simpa [registerRun, Declaration.toCallable] using h2

/-- C3: `register` invokes each declaration callable in the list exactly
once, in list order (the invocation log equals the list of callable
identities), and returns the process-wide `stream_to_testers` mapping
itself (the returned value coincides with the global table after the
call). -/
theorem c3_register_invokes_all_and_returns_table (fns : List Callable) (t : Table) :
    (register fns t).1 = fns.map Callable.id
      ∧ (register fns t).2.2 = (register fns t).2.1 := by
  constructor
  · simpa [register] using registerRun_log fns t
  · simp [register]

/-- C6: the correlation name `expect` resolves is the name of the function
that directly invoked `expect` — not the name of `expect` itself nor of the
resolver helper `_get_name_of_expect_caller`. -/
theorem c6_expect_captures_direct_caller_name (caller : String) (rest : pyStack) :
    expectTestName caller rest = some caller
      ∧ (caller ≠ "expect" → expectTestName caller rest ≠ some "expect")
      ∧ (caller ≠ "_get_name_of_expect_caller" →
          expectTestName caller rest ≠ some "_get_name_of_expect_caller") := by
  refine ⟨rfl, ?_, ?_⟩ <;>
    · intro hne hcontra
      exact hne (Option.some.inj hcontra.symm).symm

/-- Witness for C6 at a concrete declaration function name. -/
theorem c6_expect_captures_direct_caller_name_witness :
    expectTestName "pscheck_temperature" ["register", "main"] = some "pscheck_temperature" :=
  (c6_expect_captures_direct_caller_name "pscheck_temperature" ["register", "main"]).1

/-- C7: wrapped testers are stored in registration order: within one
`tests_registrar` call, in argument order; across two calls against the
same stream, the second call's testers after the first call's; hence the
per-element run over the stored list visits the testers in exactly that
order. -/
theorem c7_testers_stored_and_run_in_registration_order (t : Table) (s : Nat)
    (n1 n2 : String) (ts1 ts2 : List Tester) :
    (lookupTable (tests_registrar n2 s ts2 (tests_registrar n1 s ts1 t)) s).getD []
        = (lookupTable t s).getD []
          ++ ts1.map (fun tr => (⟨n1, tr⟩ : WTester))
          ++ ts2.map (fun tr => (⟨n2, tr⟩ : WTester))
      ∧ ∀ ints element,
        runTestersOnElement ints (tests_registrar n2 s ts2 (tests_registrar n1 s ts1 t)) s
            element
          = ((lookupTable t s).getD []
              ++ ts1.map (fun tr => (⟨n1, tr⟩ : WTester))
              ++ ts2.map fun tr => (⟨n2, tr⟩ : WTester)).map fun wt => wt.call ints element := by
  have h1 := lookup_tests_registrar_getD n1 s ts1 t
  have h2 := lookup_tests_registrar_getD n2 s ts2 (tests_registrar n1 s ts1 t)
  constructor
  · rw [h2, h1, List.append_assoc]
  · intro ints element
    rw [runTestersOnElement, h2, h1, List.append_assoc]

/-- C4: registering a second group of testers against a stream that already
has testers appends the new wrapped testers to the existing list; and no
operation (`_register_tester_for_stream`, the `tests_registrar` returned by
`expect`, a declaration body, `register`) ever removes a key or a stored
tester from the table, which therefore grows monotonically. -/
theorem c4_table_grows_monotonically (t : Table) (s : Nat) (name : String)
    (ts : List Tester) (l : List WTester) (h : lookupTable t s = some l) :
    lookupTable (tests_registrar name s ts t) s
        = some (l ++ ts.map fun tr => (⟨name, tr⟩ : WTester))
      ∧ (∀ wt, TableExtends t (register_tester_for_stream t s wt))
      ∧ TableExtends t (tests_registrar name s ts t)
      ∧ (∀ d : Declaration, TableExtends t (runDeclaration d t))
      ∧ ∀ ds : List Declaration,
          TableExtends t (register (ds.map fun d => d.toCallable 0) t).2.1 := by
  refine ⟨?_, fun wt => tableExtends_register t s wt,
    tableExtends_tests_registrar name s ts t,
    fun d => tableExtends_runDeclaration d t, fun ds => ?_⟩
  · obtain ⟨l2, hl2⟩ := tableExtends_tests_registrar name s ts t s l h
    have hgetD := lookup_tests_registrar_getD name s ts t
    rw [hl2, h] at hgetD
    simp only [Option.getD_some] at hgetD
    rw [hl2]
    exact congrArg some hgetD
  · simpa [register] using tableExtends_registerRun_decls ds t

/-- An integration entry used by the concrete witnesses. -/
def integEx : Integration := ⟨"temperature checks"⟩

/-- A concrete integrations module whose notification calls succeed. -/
def intsEx : Integrations :=
  ⟨[("pscheck_temperature", integEx)], fun _ _ => Option.none, fun _ _ => Option.none⟩

/-- A tester that always returns `True`. -/
def trueTester : Tester := ⟨"always_true", fun _ => .ret (.bool true)⟩

/-- A tester that always returns `False`. -/
def falseTester : Tester := ⟨"always_false", fun _ => .ret (.bool false)⟩

/-- A tester that always raises. -/
def raisingTester : Tester := ⟨"always_raises", fun _ => .exc (.err "boom")⟩

/-- Witness for C4: a table already holding one wrapped tester for stream 1
gains, not loses, the two testers of a second group. -/
theorem c4_table_grows_monotonically_witness :
    lookupTable [(1, [(⟨"g1", trueTester⟩ : WTester)])] 1 = some [⟨"g1", trueTester⟩]
      ∧ lookupTable
          (tests_registrar "g2" 1 [falseTester, raisingTester]
            [(1, [(⟨"g1", trueTester⟩ : WTester)])]) 1
        = some [⟨"g1", trueTester⟩, ⟨"g2", falseTester⟩, ⟨"g2", raisingTester⟩] := by
  refine ⟨rfl, ?_⟩
  have h := (c4_table_grows_monotonically [(1, [(⟨"g1", trueTester⟩ : WTester)])] 1 "g2"
    [falseTester, raisingTester] [⟨"g1", trueTester⟩] rfl).1
  simpa using h

/-- C5: when the correlation name has no entry in the integration registry
at invocation time, the `KeyError` of the dict subscript is not caught by
the wrapper and propagates out of it; no payload is built and no
notification entry point runs. -/
theorem c5_missing_integration_lookup_propagates (ints : Integrations)
    (test_name : String) (tester : Tester) (element : PyVal)
    (hlook : lookupIntegration ints.registered_integrations test_name = Option.none) :
    on_failure_wrapper ints test_name tester element
        = .raised (.keyError test_name) [.registryLookup test_name]
      ∧ (on_failure_wrapper ints test_name tester element).returnedNormally = false := by
  simp [on_failure_wrapper, hlook, WrapperResult.returnedNormally]

/-- Witness for C5 at a correlation name absent from the registry. -/
theorem c5_missing_integration_lookup_propagates_witness :
    on_failure_wrapper intsEx "pscheck_pressure" trueTester (.int 0)
        = .raised (.keyError "pscheck_pressure") [.registryLookup "pscheck_pressure"]
      ∧ (on_failure_wrapper intsEx "pscheck_pressure" trueTester (.int 0)).returnedNormally
        = false :=
  c5_missing_integration_lookup_propagates intsEx "pscheck_pressure" trueTester (.int 0) rfl

/-- C1: a tester that raises (with the registry lookup and the
error-notification call succeeding) leads to exactly one `notify_error`
call, carrying the raised exception under the payload's `error` field; no
`notify_element` call is made and no exception propagates out of the
wrapper. -/
theorem c1_tester_raises_notifies_error_once (ints : Integrations)
    (test_name : String) (tester : Tester) (element : PyVal)
    (integ : Integration) (e : Exc)
    (hlook : lookupIntegration ints.registered_integrations test_name = some integ)
    (hrun : tester.run element = .exc e)
    (hnerr : ints.notify_error test_name
        { make_message_payload integ.test_description tester.name element with
          error := some e } = Option.none) :
    ((on_failure_wrapper ints test_name tester element).events.filter Event.isNotifyError
        = [.notifyError test_name
            { make_message_payload integ.test_description tester.name element with
              error := some e }])
      ∧ ({ make_message_payload integ.test_description tester.name element with
            error := some e } : Payload).error = some e
      ∧ (on_failure_wrapper ints test_name tester element).events.filter
          Event.isNotifyElement = []
      ∧ (on_failure_wrapper ints test_name tester element).returnedNormally = true := by
  refine ⟨?_, rfl, ?_, ?_⟩ <;>
    simp [on_failure_wrapper, hlook, hrun, hnerr, WrapperResult.events,
      WrapperResult.returnedNormally, List.filter, Event.isNotifyError, Event.isNotifyElement]

/-- Witness for C1 at a concrete raising tester. -/
theorem c1_tester_raises_notifies_error_once_witness :
    ((on_failure_wrapper intsEx "pscheck_temperature" raisingTester (.int 0)).events.filter
        Event.isNotifyError
        = [.notifyError "pscheck_temperature"
            { make_message_payload integEx.test_description raisingTester.name (.int 0) with
              error := some (.err "boom") }])
      ∧ ({ make_message_payload integEx.test_description raisingTester.name (.int 0) with
            error := some (.err "boom") } : Payload).error = some (.err "boom")
      ∧ (on_failure_wrapper intsEx "pscheck_temperature" raisingTester (.int 0)).events.filter
          Event.isNotifyElement = []
      ∧ (on_failure_wrapper intsEx "pscheck_temperature" raisingTester
          (.int 0)).returnedNormally = true :=
  c1_tester_raises_notifies_error_once intsEx "pscheck_temperature" raisingTester (.int 0)
    integEx (.err "boom") rfl rfl rfl

/-- C2: a tester that returns `False` (with the registry lookup succeeding
and `notify_element` not raising) leads to exactly one `notify_element`
call, whose payload holds the tester's name under `expect_function` and the
element under `element`; `notify_error` is not called. -/
theorem c2_tester_false_notifies_element_once (ints : Integrations)
    (test_name : String) (tester : Tester) (element : PyVal) (integ : Integration)
    (hlook : lookupIntegration ints.registered_integrations test_name = some integ)
    (hrun : tester.run element = .ret (.bool false))
    (hnel : ints.notify_element test_name
        (make_message_payload integ.test_description tester.name element) = Option.none) :
    ((on_failure_wrapper ints test_name tester element).events.filter Event.isNotifyElement
        = [.notifyElement test_name
            (make_message_payload integ.test_description tester.name element)])
      ∧ (make_message_payload integ.test_description tester.name element).expect_function
        = tester.name
      ∧ (make_message_payload integ.test_description tester.name element).element = element
      ∧ (on_failure_wrapper ints test_name tester element).events.filter
          Event.isNotifyError = [] := by
  refine ⟨?_, rfl, rfl, ?_⟩ <;>
    simp [on_failure_wrapper, hlook, hrun, hnel, WrapperResult.events, PyVal.truthy,
      List.filter, Event.isNotifyError, Event.isNotifyElement]

/-- Witness for C2 at a concrete always-false tester. -/
theorem c2_tester_false_notifies_element_once_witness :
    ((on_failure_wrapper intsEx "pscheck_temperature" falseTester (.str "el")).events.filter
        Event.isNotifyElement
        = [.notifyElement "pscheck_temperature"
            (make_message_payload integEx.test_description falseTester.name (.str "el"))])
      ∧ (make_message_payload integEx.test_description falseTester.name
          (.str "el")).expect_function = falseTester.name
      ∧ (make_message_payload integEx.test_description falseTester.name (.str "el")).element
        = .str "el"
      ∧ (on_failure_wrapper intsEx "pscheck_temperature" falseTester (.str "el")).events.filter
          Event.isNotifyError = [] :=
  c2_tester_false_notifies_element_once intsEx "pscheck_temperature" falseTester (.str "el")
    integEx rfl rfl rfl

/-- A tester returning the empty list (falsy but not `False`). -/
def emptyListTester : Tester := ⟨"returns_empty_list", fun _ => .ret (.list [])⟩

/-- A tester returning the integer 1 (truthy but not `True`). -/
def oneTester : Tester := ⟨"returns_one", fun _ => .ret (.int 1)⟩

/-- C9: failure is judged by truthiness, not by the boolean `False`: any
falsy return triggers `notify_element` exactly as `False` does, while any
truthy return makes the wrapper return with no notification at all. -/
theorem c9_falsy_fails_truthy_passes (ints : Integrations) (test_name : String)
    (tester : Tester) (element : PyVal) (v : PyVal) (integ : Integration)
    (hlook : lookupIntegration ints.registered_integrations test_name = some integ)
    (hrun : tester.run element = .ret v) :
    (v.truthy = false →
      ints.notify_element test_name
          (make_message_payload integ.test_description tester.name element) = Option.none →
      ((on_failure_wrapper ints test_name tester element).events.filter Event.isNotifyElement
          = [.notifyElement test_name
              (make_message_payload integ.test_description tester.name element)]
        ∧ (on_failure_wrapper ints test_name tester element).events.filter
            Event.isNotifyError = []))
      ∧ (v.truthy = true →
          on_failure_wrapper ints test_name tester element
            = .ok [.registryLookup test_name,
                .payloadBuilt (make_message_payload integ.test_description tester.name
                  element)]) := by
  constructor
  · intro hv hnel
    constructor <;>
      simp [on_failure_wrapper, hlook, hrun, hv, hnel, WrapperResult.events,
        List.filter, Event.isNotifyError, Event.isNotifyElement]
  · intro hv
    simp [on_failure_wrapper, hlook, hrun, hv]

/-- Witness for C9: an empty-list return is notified like `False`; an
integer 1 return passes silently. -/
theorem c9_falsy_fails_truthy_passes_witness :
    (((on_failure_wrapper intsEx "pscheck_temperature" emptyListTester (.int 7)).events.filter
          Event.isNotifyElement
          = [.notifyElement "pscheck_temperature"
              (make_message_payload integEx.test_description emptyListTester.name (.int 7))])
        ∧ (on_failure_wrapper intsEx "pscheck_temperature" emptyListTester (.int 7)).events.filter
            Event.isNotifyError = [])
      ∧ on_failure_wrapper intsEx "pscheck_temperature" oneTester (.int 7)
        = .ok [.registryLookup "pscheck_temperature",
            .payloadBuilt (make_message_payload integEx.test_description oneTester.name
              (.int 7))] :=
  ⟨(c9_falsy_fails_truthy_passes intsEx "pscheck_temperature" emptyListTester (.int 7)
      (.list []) integEx rfl rfl).1 rfl rfl,
    (c9_falsy_fails_truthy_passes intsEx "pscheck_temperature" oneTester (.int 7)
      (.int 1) integEx rfl rfl).2 rfl⟩

/-- C10: when `notify_element` itself raises while reporting a falsy tester
result, the wrapper's handler catches it, stores that exception under the
payload's `error` field and calls `notify_error`; so a merely-false tester
result can still produce an error notification. -/
theorem c10_notify_element_exception_reaches_notify_error (ints : Integrations)
    (test_name : String) (tester : Tester) (element : PyVal) (v : PyVal)
    (integ : Integration) (e : Exc)
    (hlook : lookupIntegration ints.registered_integrations test_name = some integ)
    (hrun : tester.run element = .ret v)
    (hv : v.truthy = false)
    (hnel : ints.notify_element test_name
        (make_message_payload integ.test_description tester.name element) = some e)
    (hnerr : ints.notify_error test_name
        { make_message_payload integ.test_description tester.name element with
          error := some e } = Option.none) :
    on_failure_wrapper ints test_name tester element
        = .ok [.registryLookup test_name,
            .payloadBuilt (make_message_payload integ.test_description tester.name element),
            .notifyElement test_name
              (make_message_payload integ.test_description tester.name element),
            .notifyError test_name
              { make_message_payload integ.test_description tester.name element with
                error := some e }]
      ∧ ({ make_message_payload integ.test_description tester.name element with
            error := some e } : Payload).error = some e := by
  refine ⟨?_, rfl⟩
  simp [on_failure_wrapper, hlook, hrun, hv, hnel, hnerr]

/-- A concrete integrations module whose element-notification call raises. -/
def intsNotifyRaises : Integrations :=
  ⟨[("pscheck_temperature", integEx)],
    fun _ _ => some (.err "element_sink_down"), fun _ _ => Option.none⟩

/-- Witness for C10 at a concrete raising `notify_element`. -/
theorem c10_notify_element_exception_reaches_notify_error_witness :
    on_failure_wrapper intsNotifyRaises "pscheck_temperature" falseTester (.int 3)
        = .ok [.registryLookup "pscheck_temperature",
            .payloadBuilt (make_message_payload integEx.test_description falseTester.name
              (.int 3)),
            .notifyElement "pscheck_temperature"
              (make_message_payload integEx.test_description falseTester.name (.int 3)),
            .notifyError "pscheck_temperature"
              { make_message_payload integEx.test_description falseTester.name (.int 3) with
                error := some (.err "element_sink_down") }]
      ∧ ({ make_message_payload integEx.test_description falseTester.name (.int 3) with
            error := some (.err "element_sink_down") } : Payload).error
        = some (.err "element_sink_down") :=
  c10_notify_element_exception_reaches_notify_error intsNotifyRaises "pscheck_temperature"
    falseTester (.int 3) (.bool false) integEx (.err "element_sink_down") rfl rfl rfl rfl rfl

lemma on_failure_wrapper_events_structure (ints : Integrations) (test_name : String)
    (tester : Tester) (element : PyVal) (integ : Integration)
    (hlook : lookupIntegration ints.registered_integrations test_name = some integ) :
    ∃ rest, (on_failure_wrapper ints test_name tester element).events
      = .registryLookup test_name
        :: .payloadBuilt (make_message_payload integ.test_description tester.name element)
        :: rest := by
  cases hrun : tester.run element with
  | ret v =>
    cases hv : v.truthy with
    | true =>
      refine ⟨[], ?_⟩
      simp [on_failure_wrapper, hlook, hrun, hv, WrapperResult.events]
    | false =>
      cases hnel : ints.notify_element test_name
          (make_message_payload integ.test_description tester.name element) with
      | none =>
        refine ⟨[.notifyElement test_name
          (make_message_payload integ.test_description tester.name element)], ?_⟩
        simp [on_failure_wrapper, hlook, hrun, hv, hnel, WrapperResult.events]
      | some e =>
        cases hnerr : ints.notify_error test_name
            { make_message_payload integ.test_description tester.name element with
              error := some e } with
        | none =>
          refine ⟨[.notifyElement test_name
              (make_message_payload integ.test_description tester.name element),
            .notifyError test_name
              { make_message_payload integ.test_description tester.name element with
                error := some e }], ?_⟩
          simp [on_failure_wrapper, hlook, hrun, hv, hnel, hnerr, WrapperResult.events]
        | some e2 =>
          refine ⟨[.notifyElement test_name
              (make_message_payload integ.test_description tester.name element),
            .notifyError test_name
              { make_message_payload integ.test_description tester.name element with
                error := some e }], ?_⟩
          simp [on_failure_wrapper, hlook, hrun, hv, hnel, hnerr, WrapperResult.events]
  | exc e =>
    cases hnerr : ints.notify_error test_name
        { make_message_payload integ.test_description tester.name element with
          error := some e } with
    | none =>
      refine ⟨[.notifyError test_name
        { make_message_payload integ.test_description tester.name element with
          error := some e }], ?_⟩
      simp [on_failure_wrapper, hlook, hrun, hnerr, WrapperResult.events]
    | some e2 =>
      refine ⟨[.notifyError test_name
        { make_message_payload integ.test_description tester.name element with
          error := some e }], ?_⟩
      simp [on_failure_wrapper, hlook, hrun, hnerr, WrapperResult.events]

/-- C8 counterexample: at a concrete input the tester succeeds (returns
`True`), yet the wrapper has already built the payload and accessed the
integration registry — refuting "for an element on which the tester
succeeds, no payload is built and no integration-registry access is
performed". -/
theorem c8_payload_built_on_success_counterexample :
    trueTester.run (.int 5) = .ret (.bool true)
      ∧ PyVal.truthy (.bool true) = true
      ∧ (on_failure_wrapper intsEx "pscheck_temperature" trueTester (.int 5)).events.filter
          Event.isPayloadBuilt
        = [.payloadBuilt (make_message_payload integEx.test_description trueTester.name
            (.int 5))]
      ∧ (on_failure_wrapper intsEx "pscheck_temperature" trueTester (.int 5)).events.filter
          Event.isRegistryLookup
        = [.registryLookup "pscheck_temperature"] :=
  ⟨rfl, rfl, rfl, rfl⟩

/-- C8 amended: whenever the registry lookup succeeds, the wrapper accesses
the registry and builds the payload on every invocation, before the tester
runs (the trace always starts with those two events); what holds on a
succeeding element is only that neither notification entry point is
invoked. -/
theorem c8_amended_payload_built_on_every_invocation (ints : Integrations)
    (test_name : String) (tester : Tester) (element : PyVal) (integ : Integration)
    (hlook : lookupIntegration ints.registered_integrations test_name = some integ) :
    (∃ rest, (on_failure_wrapper ints test_name tester element).events
        = .registryLookup test_name
          :: .payloadBuilt (make_message_payload integ.test_description tester.name element)
          :: rest)
      ∧ ∀ v, tester.run element = .ret v → v.truthy = true →
          on_failure_wrapper ints test_name tester element
            = .ok [.registryLookup test_name,
                .payloadBuilt (make_message_payload integ.test_description tester.name
                  element)] := by
  refine ⟨on_failure_wrapper_events_structure ints test_name tester element integ hlook, ?_⟩
  intro v hrun hv
  simp [on_failure_wrapper, hlook, hrun, hv]

/-- Witness for the amended C8 at a concrete succeeding tester. -/
theorem c8_amended_payload_built_on_every_invocation_witness :
    (∃ rest, (on_failure_wrapper intsEx "pscheck_temperature" trueTester (.int 5)).events
        = .registryLookup "pscheck_temperature"
          :: .payloadBuilt (make_message_payload integEx.test_description trueTester.name
              (.int 5))
          :: rest)
      ∧ on_failure_wrapper intsEx "pscheck_temperature" trueTester (.int 5)
        = .ok [.registryLookup "pscheck_temperature",
            .payloadBuilt (make_message_payload integEx.test_description trueTester.name
              (.int 5))] :=
  ⟨(c8_amended_payload_built_on_every_invocation intsEx "pscheck_temperature" trueTester
      (.int 5) integEx rfl).1,
    (c8_amended_payload_built_on_every_invocation intsEx "pscheck_temperature" trueTester
      (.int 5) integEx rfl).2 (.bool true) rfl rfl⟩
